import Mathlib

/-!
Shallow embedding of the database resolver and registry in
`src/extensions/ql-vscode/src/databases.ts`, together with proofs of the
behavioural claims about it.

Conventions of the embedding:
* Filesystems are finite, explicit: a `FileSystem` lists the absolute paths of
  the directories and files that exist.  The `glob` calls of the source are
  modelled as functions over that structure; enumeration order is the order of
  the lists.
* `vscode.Uri` is modelled as a record of its five components, with the posix
  behaviour of `Uri.file` / `fsPath` / `toString(true)`.
* Asynchronous functions are modelled as pure functions; a thrown exception is
  an `Except.error`; messages shown to the user (warnings, information) are
  returned as explicit lists where a claim depends on them.
* Reference identity of `DatabaseItemImpl` objects in the registry is modelled
  by a numeric `id` handed out at registration time.
-/

/-! ### String helpers (JS string / Node path operations used by the source) -/

def isPrefixList : List Char → List Char → Bool
  | [], _ => true
  | _ :: _, [] => false
  | a :: as, b :: bs => a == b && isPrefixList as bs

def listIsSub (pat : List Char) : List Char → Bool
  | [] => pat.isEmpty
  | c :: cs => isPrefixList pat (c :: cs) || listIsSub pat cs

def strStartsWith (s pat : String) : Bool := isPrefixList pat.data s.data

def strEndsWith (s pat : String) : Bool := isPrefixList pat.data.reverse s.data.reverse

/-- Substring containment: `pat` occurs contiguously inside `s`. -/
def strContains (s pat : String) : Bool := listIsSub pat.data s.data

def strContainsChar (s : String) (c : Char) : Bool := s.data.contains c

def splitList (c : Char) : List Char → List (List Char)
  | [] => [[]]
  | a :: as =>
    let r := splitList c as
    if a == c then [] :: r
    else
      match r with
      | [] => [[a]]
      | h :: t => (a :: h) :: t

def stripTrailingSlash (p : String) : String :=
  String.mk ((p.data.reverse.dropWhile (· == '/')).reverse)

/-- Node `path.join(a, b)` for an absolute `a` and a relative `b` (the only
shapes the source uses): concatenation with exactly one separator at the
boundary.  A trailing slash of `b` is kept, as Node does. -/
def pathJoin (a b : String) : String :=
  if strEndsWith a "/" then a ++ b else a ++ "/" ++ b

/-- Node `path.resolve(base, rel)` for an absolute `base` and a bare relative
`rel`, which is how the source calls it: the result is `base/rel` with
trailing slashes of `base` normalized away. -/
def pathResolve (base rel : String) : String :=
  stripTrailingSlash base ++ "/" ++ rel

/-- Node `path.basename`: the last non-empty `/`-separated segment. -/
def pathBasename (p : String) : String :=
  String.mk (((splitList '/' p.data).filter (fun l => !l.isEmpty)).getLastD [])

/-- Node `path.extname`: the suffix of the basename from its last `.`, where a
leading dot (hidden-file style) does not count as an extension separator. -/
def pathExtname (p : String) : String :=
  match (pathBasename p).data with
  | [] => ""
  | _ :: rest =>
    match splitList '.' rest with
    | [] => ""
    | [_] => ""
    | parts => String.mk ('.' :: parts.getLastD [])

/-! ### Filesystem model and the `glob` / `fs` calls of the source -/

/-- A finite filesystem snapshot: the absolute paths (without trailing slash)
of every directory and every file that exists. -/
structure FileSystem where
  dirs : List String
  files : List String
deriving DecidableEq, Repr

def FileSystem.isDir (fs : FileSystem) (p : String) : Bool :=
  fs.dirs.contains (stripTrailingSlash p)

def FileSystem.isFile (fs : FileSystem) (p : String) : Bool :=
  fs.files.contains (stripTrailingSlash p)

/-- `fs.pathExists(p)` from `fs-extra`. -/
def FileSystem.pathExists (fs : FileSystem) (p : String) : Bool :=
  fs.isDir p || fs.isFile p

/-- The name of `entry` when it lies directly inside the directory `cwd`
(one path segment below it), `none` otherwise. -/
def childName (cwd entry : String) : Option String :=
  let c := stripTrailingSlash cwd ++ "/"
  if isPrefixList c.data entry.data then
    let n := entry.data.drop c.data.length
    if !n.isEmpty && !(n.contains '/') then some (String.mk n) else none
  else none

/-- `glob('db-*/', { cwd })`: directories directly under `cwd` whose name
starts with `db-`, as relative paths with a trailing slash. -/
def globDbStar (fs : FileSystem) (cwd : String) : List String :=
  (fs.dirs.filterMap (childName cwd)).filterMap
    (fun n => if strStartsWith n "db-" then some (n ++ "/") else none)

/-- `glob('working/db-*/', { cwd })`: directories directly under
`cwd/working` whose name starts with `db-`, as relative paths. -/
def globWorkingDbStar (fs : FileSystem) (cwd : String) : List String :=
  (fs.dirs.filterMap (childName (pathJoin cwd "working"))).filterMap
    (fun n => if strStartsWith n "db-" then some ("working/" ++ n ++ "/") else none)

/-- `glob('*.dbscheme', { cwd })` — `getDbSchemeFiles` in the source: the
relative paths of all `.dbscheme` entries directly under the directory. -/
def getDbSchemeFiles (fs : FileSystem) (dbDirectory : String) : List String :=
  ((fs.files ++ fs.dirs).filterMap (childName dbDirectory)).filter
    (fun n => strEndsWith n ".dbscheme")

/-! ### The `vscode.Uri` model (posix) -/

structure Uri where
  scheme : String := ""
  authority : String := ""
  path : String := ""
  query : String := ""
  fragment : String := ""
deriving DecidableEq, Repr

/-- `vscode.Uri.file(p)`: scheme `file`, with the reference-resolution rule
that an empty path becomes `/` and a relative path gains a leading `/`. -/
def Uri.file (p : String) : Uri :=
  { scheme := "file",
    path := if p = "" then "/" else if strStartsWith p "/" then p else "/" ++ p }

/-- `uri.fsPath` on a posix host: a UNC form for `file` URIs with an
authority, otherwise simply the path component. -/
def Uri.fsPath (u : Uri) : String :=
  if u.authority ≠ "" ∧ u.path.data.length > 1 ∧ u.scheme = "file" then
    "//" ++ u.authority ++ u.path
  else u.path

/-- `uri.toString(true)` (skip encoding): scheme, authority, path, query and
fragment concatenated in URI syntax. -/
def Uri.toStr (u : Uri) : String :=
  u.scheme ++ ":" ++ (if u.authority ≠ "" then "//" ++ u.authority else "")
    ++ u.path
    ++ (if u.query ≠ "" then "?" ++ u.query else "")
    ++ (if u.fragment ≠ "" then "#" ++ u.fragment else "")

/-- Scheme constant imported from `archive-filesystem-provider.ts` (a file of
this repository outside the given slice).  Only its identity matters to the
code under study, never its exact spelling. -/
def zipArchiveScheme : String := "codeql-zip-archive"

/-! ### Data model of `databases.ts` -/

/-- `enum DatabaseKind`. -/
inductive DatabaseKind where
  | Database
  | RawDataset
deriving DecidableEq, Repr

/-- `interface DatabaseContents`. -/
structure DatabaseContents where
  kind : DatabaseKind
  name : String
  datasetUri : Uri
  sourceArchiveUri : Option Uri := none
  dbSchemeUri : Option Uri := none
deriving DecidableEq, Repr

/-- Errors thrown by the resolver: `InvalidDatabaseError` and the plain
`Error` used for an unsupported URI scheme. -/
inductive DbError where
  | invalidDatabase (msg : String)
  | genericError (msg : String)
deriving DecidableEq, Repr

/-- Message of `findDataset` when no dataset directory is found. -/
def noDatasetMsg (parentDirectory : String) : String :=
  "\x27" ++ parentDirectory ++ "\x27 does not contain a dataset directory."

/-- Warning of `findDataset` when several dataset directories are found. -/
def datasetWarning (dbAbsolutePath : String) : String :=
  "Found multiple dataset directories in database, using \x27" ++ dbAbsolutePath ++ "\x27."

/-- Message of `resolveDatabaseContents` for a non-`file` URI scheme. -/
def schemeMsg (scheme : String) : String :=
  "Database URI scheme \x27" ++ scheme ++ "\x27 not supported; only \x27file\x27 URIs are supported."

/-- Message of `resolveDatabaseContents` for a missing path. -/
def notExistMsg (databasePath : String) : String :=
  "Database \x27" ++ databasePath ++ "\x27 does not exist."

/-- Message of `resolveDatabaseContents` when neither resolution applies. -/
def notValidMsg (databasePath : String) : String :=
  "\x27" ++ databasePath ++ "\x27 is not a valid database."

/-- Message of `resolveDatabaseContents` for zero dbscheme files. -/
def noSchemeMsg (databasePath dbPath : String) : String :=
  "Database \x27" ++ databasePath ++ "\x27 does not contain a QL dbscheme under \x27" ++ dbPath ++ "\x27."

/-- Message of `resolveDatabaseContents` for several dbscheme files. -/
def multiSchemeMsg (databasePath dbPath : String) : String :=
  "Database \x27" ++ databasePath ++ "\x27 contains multiple QL dbschemes under \x27" ++ dbPath ++ "\x27."

/-! ### Layout prober and resolver -/

/-- `findDataset(parentDirectory)`: glob `db-*/` in the root, falling back to
`working/db-*/`; throw when both are empty; pick the first match, with a
non-fatal warning (the second component) when there are several. -/
def findDataset (fs : FileSystem) (parentDirectory : String) :
    Except DbError (Uri × List String) :=
  let dbRelativePaths0 := globDbStar fs parentDirectory
  let dbRelativePaths :=
    if dbRelativePaths0.isEmpty then globWorkingDbStar fs parentDirectory
    else dbRelativePaths0
  match dbRelativePaths with
  | [] => .error (.invalidDatabase (noDatasetMsg parentDirectory))
  | n :: rest =>
    let dbAbsolutePath := pathJoin parentDirectory n
    .ok (Uri.file dbAbsolutePath,
      if rest.isEmpty then [] else [datasetWarning dbAbsolutePath])

/-- `findSourceArchive` body: probe each stem in `relativePaths`, the plain
path before its `.zip` form; a `.zip` hit gets the zip-archive scheme. -/
def findSourceArchiveAux (fs : FileSystem) (databasePath : String) :
    List String → Option Uri
  | [] => none
  | relativePath :: rest =>
    let basePath := pathJoin databasePath relativePath
    let zipPath := basePath ++ ".zip"
    if fs.pathExists basePath then some (Uri.file basePath)
    else if fs.pathExists zipPath then
      some { Uri.file zipPath with scheme := zipArchiveScheme }
    else findSourceArchiveAux fs databasePath rest

/-- `findSourceArchive(databasePath)` with its probe list
`['src', 'output/src_archive']`.  Returns `none` (never an error) when no
candidate exists; the information message it shows then is not modelled. -/
def findSourceArchive (fs : FileSystem) (databasePath : String) : Option Uri :=
  findSourceArchiveAux fs databasePath ["src", "output/src_archive"]

/-- `resolveDatabase(databasePath)`.  The TypeScript declares the return type
`DatabaseContents | undefined`, but every path either returns a record or
throws (`findDataset` throws); the `Option` mirrors the declared type and is
always `some` on success. -/
def resolveDatabase (fs : FileSystem) (databasePath : String) :
    Except DbError (Option DatabaseContents × List String) :=
  match findDataset fs databasePath with
  | .error e => .error e
  | .ok (datasetUri, warnings) =>
    .ok (some {
      kind := DatabaseKind.Database,
      name := pathBasename databasePath,
      datasetUri := datasetUri,
      sourceArchiveUri := findSourceArchive fs databasePath }, warnings)

/-- `resolveRawDataset(datasetPath)`: the location itself is the dataset when
it directly contains at least one `.dbscheme` file. -/
def resolveRawDataset (fs : FileSystem) (datasetPath : String) :
    Option DatabaseContents :=
  if (getDbSchemeFiles fs datasetPath).length > 0 then
    some {
      kind := DatabaseKind.RawDataset,
      name := pathBasename datasetPath,
      datasetUri := Uri.file datasetPath,
      sourceArchiveUri := none }
  else none

/-- `resolveDatabaseContents(uri)`.  Note the faithful exception semantics of
`await resolveDatabase(p) || await resolveRawDataset(p)`: an error thrown by
`resolveDatabase` propagates, and the `||` fallback runs only when
`resolveDatabase` returns `undefined` — which it never does. -/
def resolveDatabaseContents (fs : FileSystem) (uri : Uri) :
    Except DbError (DatabaseContents × List String) :=
  if uri.scheme ≠ "file" then
    .error (.genericError (schemeMsg uri.scheme))
  else
    let databasePath := uri.fsPath
    if fs.pathExists databasePath = false then
      .error (.invalidDatabase (notExistMsg databasePath))
    else
      match resolveDatabase fs databasePath with
      | .error e => .error e
      | .ok (found, warnings) =>
        match (match found with
               | some c => some c
               | none => resolveRawDataset fs databasePath) with
        | none => .error (.invalidDatabase (notValidMsg databasePath))
        | some contents =>
          let dbPath := contents.datasetUri.fsPath
          match getDbSchemeFiles fs dbPath with
          | [] => .error (.invalidDatabase (noSchemeMsg databasePath dbPath))
          | [f] => .ok ({ contents with
              dbSchemeUri := some (Uri.file (pathResolve dbPath f)) }, warnings)
          | _ :: _ :: _ =>
            .error (.invalidDatabase (multiSchemeMsg databasePath dbPath))

/-! ### Database item -/

/-- `interface DatabaseOptions` — both fields optional. -/
structure DatabaseOptions where
  displayName : Option String := none
  ignoreSourceArchive : Option Bool := none
deriving DecidableEq, Repr

/-- `interface FullDatabaseOptions` — `ignoreSourceArchive` made required. -/
structure FullDatabaseOptions where
  displayName : Option String := none
  ignoreSourceArchive : Bool
deriving DecidableEq, Repr

/-- `interface PersistedDatabaseItem`. -/
structure PersistedDatabaseItem where
  uri : String
  options : Option DatabaseOptions := none
deriving DecidableEq, Repr

/-- The mutable state of a `DatabaseItemImpl`: its URI and options, the cached
`_contents` and the cached `_error`. -/
structure DatabaseItemImpl where
  databaseUri : Uri
  options : FullDatabaseOptions
  contents : Option DatabaseContents
  error : Option DbError
deriving DecidableEq, Repr

/-- The `DatabaseItemImpl` constructor: `_error` starts `undefined`,
`_contents` starts from the constructor argument. -/
def mkDatabaseItem (databaseUri : Uri) (contents : Option DatabaseContents)
    (options : FullDatabaseOptions) : DatabaseItemImpl :=
  { databaseUri := databaseUri, options := options,
    contents := contents, error := none }

/-- The `sourceArchive` getter: `undefined` when the options suppress the
archive or the contents are absent, else the contents' archive URI. -/
def DatabaseItemImpl.sourceArchive (item : DatabaseItemImpl) : Option Uri :=
  if item.options.ignoreSourceArchive then none
  else
    match item.contents with
    | none => none
    | some c => c.sourceArchiveUri

instance {ε α : Type} [DecidableEq ε] [DecidableEq α] : DecidableEq (Except ε α)
  | .ok a, .ok b =>
    if h : a = b then .isTrue (h ▸ rfl) else .isFalse (fun k => h (Except.ok.inj k))
  | .ok _, .error _ => .isFalse (fun k => Except.noConfusion k)
  | .error _, .ok _ => .isFalse (fun k => Except.noConfusion k)
  | .error a, .error b =>
    if h : a = b then .isTrue (h ▸ rfl) else .isFalse (fun k => h (Except.error.inj k))

/-- Result of one `refresh()` call: the updated item, the `onChanged`
notifications fired (each carrying the item as it was when fired), and the
returned/raised outcome. -/
structure RefreshOutcome where
  updated : DatabaseItemImpl
  notifications : List DatabaseItemImpl
  result : Except DbError Unit
deriving DecidableEq, Repr

/-- `refresh()`: on success store the contents and clear the error; on failure
clear the contents, store the error and re-throw; in the `finally`, after the
state update, fire `onChanged(this)` exactly once. -/
def DatabaseItemImpl.refresh (fs : FileSystem) (item : DatabaseItemImpl) :
    RefreshOutcome :=
  match resolveDatabaseContents fs item.databaseUri with
  | .ok (c, _warnings) =>
    let item2 := { item with contents := some c, error := none }
    { updated := item2, notifications := [item2], result := .ok () }
  | .error e =>
    let item2 := { item with contents := none, error := some e }
    { updated := item2, notifications := [item2], result := .error e }

/-- The regex replace `file.replace(/^\/*' + '/, ...)`: drop every leading
slash. -/
def dropLeadingSlashes (s : String) : String :=
  String.mk (s.data.dropWhile (· == '/'))

/-- The string replace `file.replace(':', '_')`: a string pattern in JS
replaces only the FIRST occurrence. -/
def replaceFirstColonList : List Char → List Char
  | [] => []
  | c :: cs => if c == ':' then '_' :: cs else c :: replaceFirstColonList cs

def replaceFirstColon (s : String) : String :=
  String.mk (replaceFirstColonList s.data)

/-- `resolveSourceFile(file)`. -/
def DatabaseItemImpl.resolveSourceFile (item : DatabaseItemImpl)
    (file : Option String) : Uri :=
  match DatabaseItemImpl.sourceArchive item with
  | none =>
    match file with
    | some f => Uri.file f
    | none => item.databaseUri
  | some sourceArchive =>
    match file with
    | some f =>
      let relativeFilePath := replaceFirstColon (dropLeadingSlashes f)
      if sourceArchive.scheme = zipArchiveScheme then
        { sourceArchive with fragment := relativeFilePath }
      else
        let newPath :=
          if strEndsWith sourceArchive.path "/" then sourceArchive.path
          else sourceArchive.path ++ "/"
        { sourceArchive with path := newPath ++ relativeFilePath }
    | none => sourceArchive

/-- `getExplorerUri()`: `undefined` unless the source archive's `fsPath` ends
in `.zip`; otherwise `Uri.parse(zipArchiveScheme + ':/')` — whose path
component is `/` — with the archive's `fsPath` as fragment. -/
def DatabaseItemImpl.getExplorerUri (item : DatabaseItemImpl) : Option Uri :=
  match DatabaseItemImpl.sourceArchive item with
  | none => none
  | some sourceArchive =>
    if strEndsWith (Uri.fsPath sourceArchive) ".zip" then
      some { scheme := zipArchiveScheme, path := "/",
             fragment := Uri.fsPath sourceArchive }
    else none

/-- `belongsToExplorerUri(uri)`: false when there is no explorer URI, else
`uri.scheme === zipArchiveScheme && uri.fragment === sourceArchiveUri.fsPath`,
where `sourceArchiveUri` is the explorer URI just computed. -/
def DatabaseItemImpl.belongsToExplorerUri (item : DatabaseItemImpl) (uri : Uri) :
    Bool :=
  match DatabaseItemImpl.getExplorerUri item with
  | none => false
  | some sourceArchiveUri =>
    uri.scheme == zipArchiveScheme && uri.fragment == Uri.fsPath sourceArchiveUri

/-- `getPersistedState()`: the URI rendered with `toString(true)` plus the
options (a `FullDatabaseOptions` is a `DatabaseOptions` by widening). -/
def DatabaseItemImpl.getPersistedState (item : DatabaseItemImpl) :
    PersistedDatabaseItem :=
  { uri := Uri.toStr item.databaseUri,
    options := some {
      displayName := item.options.displayName,
      ignoreSourceArchive := some item.options.ignoreSourceArchive } }

/-! ### Database manager (registry) -/

/-- The two-key durable store: `currentDatabase` and `databaseList`. -/
structure WorkspaceState where
  currentDB : Option String
  dbList : List PersistedDatabaseItem
deriving DecidableEq, Repr

/-- A registry entry: the item plus the numeric identity standing in for the
JS object reference. -/
structure RegisteredItem where
  id : Nat
  item : DatabaseItemImpl
deriving DecidableEq, Repr

/-- Events fired by the manager's two emitters; the payload is the identity of
the item, or `none` for the `undefined` payload / no current item. -/
inductive DbEvent where
  | didChangeDatabaseItem (item : Option Nat)
  | didChangeCurrentDatabaseItem (item : Option Nat)
deriving DecidableEq, Repr

/-- The mutable state of a `DatabaseManager`: `_databaseItems`,
`_currentDatabaseItem` (by identity), the workspace store, and the next fresh
identity. -/
structure DatabaseManagerState where
  databaseItems : List RegisteredItem
  currentDatabaseItem : Option Nat
  workspaceState : WorkspaceState
  nextId : Nat
deriving DecidableEq, Repr

/-- `updatePersistedDatabaseList()`: write `databaseList` from the in-memory
item list.  Note it does not touch `currentDatabase`. -/
def updatePersistedDatabaseList (s : DatabaseManagerState) : DatabaseManagerState :=
  { s with workspaceState := { s.workspaceState with
      dbList := s.databaseItems.map (fun r => DatabaseItemImpl.getPersistedState r.item) } }

/-- `updatePersistedCurrentDatabaseItem()`: write `currentDatabase` from the
in-memory current item (its URI string, or absent). -/
def updatePersistedCurrentDatabaseItem (s : DatabaseManagerState) :
    DatabaseManagerState :=
  { s with workspaceState := { s.workspaceState with
      currentDB := (s.currentDatabaseItem.bind (fun i =>
        (s.databaseItems.find? (fun r => r.id == i)).map
          (fun r => Uri.toStr r.item.databaseUri))) } }

/-- `addDatabaseItem(item)`: push, persist the list, fire
`_onDidChangeDatabaseItem.fire(undefined)`. -/
def addDatabaseItem (s : DatabaseManagerState) (item : DatabaseItemImpl) :
    DatabaseManagerState × List DbEvent :=
  let s1 := { s with
    databaseItems := s.databaseItems ++ [{ id := s.nextId, item := item }],
    nextId := s.nextId + 1 }
  (updatePersistedDatabaseList s1, [DbEvent.didChangeDatabaseItem none])

/-- `openDatabase(uri, options)`: resolve FIRST — a thrown resolution error
propagates before any item is constructed or added — then build the item with
the QLTest default for `ignoreSourceArchive` and add it.  The returned `Nat`
is the identity of the added item. -/
def openDatabase (fs : FileSystem) (s : DatabaseManagerState) (uri : Uri)
    (options : Option DatabaseOptions) :
    DatabaseManagerState × List DbEvent × Except DbError Nat :=
  match resolveDatabaseContents fs uri with
  | .error e => (s, [], .error e)
  | .ok (contents, _warnings) =>
    let realOptions := match options with | some o => o | none => {}
    let isQLTestDatabase := pathExtname (Uri.fsPath uri) == ".testproj"
    let fullOptions : FullDatabaseOptions := {
      ignoreSourceArchive := Option.getD realOptions.ignoreSourceArchive isQLTestDatabase,
      displayName := realOptions.displayName }
    let databaseItem := mkDatabaseItem uri (some contents) fullOptions
    let (s2, events) := addDatabaseItem s databaseItem
    (s2, events, .ok s.nextId)

/-- `findIndex` + `splice(index, 1)` of `removeDatabaseItem`: remove the first
entry with the given identity, if any. -/
def eraseFirstById : List RegisteredItem → Nat → List RegisteredItem
  | [], _ => []
  | r :: rest, i => if r.id == i then rest else r :: eraseFirstById rest i

/-- `removeDatabaseItem(item)`: clear the in-memory current pointer when it is
the removed item, splice the item out, persist the LIST (the persisted
`currentDatabase` key is not updated), fire the list-changed event. -/
def removeDatabaseItem (s : DatabaseManagerState) (itemId : Nat) :
    DatabaseManagerState × List DbEvent :=
  let cur := if s.currentDatabaseItem = some itemId then none
             else s.currentDatabaseItem
  let s1 := { s with
    currentDatabaseItem := cur,
    databaseItems := eraseFirstById s.databaseItems itemId }
  (updatePersistedDatabaseList s1, [DbEvent.didChangeDatabaseItem none])

/-- `findDatabaseItem(uri)`: identity lookup by `toString(true)` rendering. -/
def findDatabaseItem (s : DatabaseManagerState) (uri : Uri) :
    Option RegisteredItem :=
  s.databaseItems.find? (fun r => Uri.toStr r.item.databaseUri == Uri.toStr uri)

/-! ### Sample fixtures used by concrete theorems -/

/-- A root directory `/d` containing only a `.dbscheme` file — a raw dataset
with no `db-*` directory anywhere. -/
def fsRawOnly : FileSystem := { dirs := ["/d"], files := ["/d/x.dbscheme"] }

/-! ### Claims -/

/-- C1: for a location that exists, has no `db-*` directory directly under it
or under `working/`, yet directly contains a `.dbscheme` file, the claim says
resolution succeeds with kind=RawDataset.  In the code, `findDataset`'s
thrown error propagates out of `resolveDatabase` before the
`|| resolveRawDataset(...)` fallback can run, so resolution fails with the
dataset-search error even though `resolveRawDataset` itself would have
produced the claimed raw-dataset contents. -/
theorem c1_raw_fallback_unreachable :
    resolveDatabaseContents fsRawOnly (Uri.file "/d")
      = .error (.invalidDatabase (noDatasetMsg "/d")) ∧
    resolveRawDataset fsRawOnly "/d"
      = some { kind := DatabaseKind.RawDataset, name := "d",
               datasetUri := Uri.file "/d", sourceArchiveUri := none,
               dbSchemeUri := none } := by
  constructor <;> decide

/-- C7: `findDataset` looks for `db-*` directly under the root first, consults
`root/working` only when that search finds nothing, fails with the
no-dataset error when both searches are empty, and otherwise picks the first
match in enumeration order, emitting a non-fatal warning (while still
succeeding) exactly when there are several matches. -/
theorem c7_findDataset_search_order (fs : FileSystem) (root : String) :
    (∀ n rest, globDbStar fs root = n :: rest →
      findDataset fs root = .ok (Uri.file (pathJoin root n),
        if rest.isEmpty then [] else [datasetWarning (pathJoin root n)])) ∧
    (globDbStar fs root = [] → ∀ n rest, globWorkingDbStar fs root = n :: rest →
      findDataset fs root = .ok (Uri.file (pathJoin root n),
        if rest.isEmpty then [] else [datasetWarning (pathJoin root n)])) ∧
    (globDbStar fs root = [] → globWorkingDbStar fs root = [] →
      findDataset fs root = .error (.invalidDatabase (noDatasetMsg root))) := by
  refine ⟨?_, ?_, ?_⟩
  · intro n rest h
    simp [findDataset, h]
  · intro h0 n rest h
    simp [findDataset, h0, h]
  · intro h0 h1
    simp [findDataset, h0, h1]

/-- Witness for `c7_findDataset_search_order`, exercising all three branches
and the multiple-match warning: a root with a top-level `db-*`; a root whose
only dataset directory is under `working/` (the spec scenario); a root with
no dataset directory at all; and a root with two top-level `db-*`
directories, resolved to the first with a warning. -/
theorem c7_findDataset_search_order_witness :
    findDataset { dirs := ["/db", "/db/db-a"], files := [] } "/db"
      = .ok (Uri.file "/db/db-a/", []) ∧
    findDataset { dirs := ["/db", "/db/working", "/db/working/db-test"], files := [] } "/db"
      = .ok (Uri.file "/db/working/db-test/", []) ∧
    findDataset { dirs := ["/d"], files := [] } "/d"
      = .error (.invalidDatabase (noDatasetMsg "/d")) ∧
    findDataset { dirs := ["/db", "/db/db-a", "/db/db-b"], files := [] } "/db"
      = .ok (Uri.file "/db/db-a/", [datasetWarning "/db/db-a/"]) := by
  refine ⟨?_, ?_, ?_, ?_⟩
  · exact (c7_findDataset_search_order { dirs := ["/db", "/db/db-a"], files := [] } "/db").1
      "db-a/" [] (by decide)
  · exact (c7_findDataset_search_order
      { dirs := ["/db", "/db/working", "/db/working/db-test"], files := [] } "/db").2.1
      (by decide) "working/db-test/" [] (by decide)
  · exact (c7_findDataset_search_order { dirs := ["/d"], files := [] } "/d").2.2
      (by decide) (by decide)
  · exact (c7_findDataset_search_order
      { dirs := ["/db", "/db/db-a", "/db/db-b"], files := [] } "/db").1
      "db-a/" ["db-b/"] (by decide)

/-- C8: `findSourceArchive` probes `root/src`, `root/src.zip`,
`root/output/src_archive`, `root/output/src_archive.zip` in that order,
returns the first existing candidate (the directory form checked before the
archive form at each stem), gives `.zip` hits the zip-archive scheme, and
returns `none` — it has no error outcome at all — when none of the four
exists. -/
theorem c8_findSourceArchive_probe_order (fs : FileSystem) (databasePath : String) :
    (fs.pathExists (pathJoin databasePath "src") = true →
      findSourceArchive fs databasePath
        = some (Uri.file (pathJoin databasePath "src"))) ∧
    (fs.pathExists (pathJoin databasePath "src") = false →
     fs.pathExists (pathJoin databasePath "src" ++ ".zip") = true →
      findSourceArchive fs databasePath
        = some { Uri.file (pathJoin databasePath "src" ++ ".zip") with
                 scheme := zipArchiveScheme }) ∧
    (fs.pathExists (pathJoin databasePath "src") = false →
     fs.pathExists (pathJoin databasePath "src" ++ ".zip") = false →
     fs.pathExists (pathJoin databasePath "output/src_archive") = true →
      findSourceArchive fs databasePath
        = some (Uri.file (pathJoin databasePath "output/src_archive"))) ∧
    (fs.pathExists (pathJoin databasePath "src") = false →
     fs.pathExists (pathJoin databasePath "src" ++ ".zip") = false →
     fs.pathExists (pathJoin databasePath "output/src_archive") = false →
     fs.pathExists (pathJoin databasePath "output/src_archive" ++ ".zip") = true →
      findSourceArchive fs databasePath
        = some { Uri.file (pathJoin databasePath "output/src_archive" ++ ".zip") with
                 scheme := zipArchiveScheme }) ∧
    (fs.pathExists (pathJoin databasePath "src") = false →
     fs.pathExists (pathJoin databasePath "src" ++ ".zip") = false →
     fs.pathExists (pathJoin databasePath "output/src_archive") = false →
     fs.pathExists (pathJoin databasePath "output/src_archive" ++ ".zip") = false →
      findSourceArchive fs databasePath = none) := by
  refine ⟨?_, ?_, ?_, ?_, ?_⟩
  · intro h1
    simp [findSourceArchive, findSourceArchiveAux, h1]
  · intro h1 h2
    simp [findSourceArchive, findSourceArchiveAux, h1, h2]
  · intro h1 h2 h3
    simp [findSourceArchive, findSourceArchiveAux, h1, h2, h3]
  · intro h1 h2 h3 h4
    simp [findSourceArchive, findSourceArchiveAux, h1, h2, h3, h4]
  · intro h1 h2 h3 h4
    simp [findSourceArchive, findSourceArchiveAux, h1, h2, h3, h4]

/-- Witness for `c8_findSourceArchive_probe_order`: one filesystem per
branch, including the directory-over-archive preference when both `src` and
`src.zip` exist, and the absent (not error) outcome on an empty root. -/
theorem c8_findSourceArchive_probe_order_witness :
    findSourceArchive { dirs := ["/db", "/db/src"], files := ["/db/src.zip"] } "/db"
      = some (Uri.file "/db/src") ∧
    findSourceArchive { dirs := ["/db"], files := ["/db/src.zip"] } "/db"
      = some { Uri.file "/db/src.zip" with scheme := zipArchiveScheme } ∧
    findSourceArchive { dirs := ["/db", "/db/output", "/db/output/src_archive"], files := [] } "/db"
      = some (Uri.file "/db/output/src_archive") ∧
    findSourceArchive { dirs := ["/db"], files := ["/db/output/src_archive.zip"] } "/db"
      = some { Uri.file "/db/output/src_archive.zip" with scheme := zipArchiveScheme } ∧
    findSourceArchive { dirs := ["/db"], files := [] } "/db" = none := by
  refine ⟨?_, ?_, ?_, ?_, ?_⟩
  · exact (c8_findSourceArchive_probe_order
      { dirs := ["/db", "/db/src"], files := ["/db/src.zip"] } "/db").1 (by decide)
  · exact (c8_findSourceArchive_probe_order
      { dirs := ["/db"], files := ["/db/src.zip"] } "/db").2.1 (by decide) (by decide)
  · exact (c8_findSourceArchive_probe_order
      { dirs := ["/db", "/db/output", "/db/output/src_archive"], files := [] } "/db").2.2.1
      (by decide) (by decide) (by decide)
  · exact (c8_findSourceArchive_probe_order
      { dirs := ["/db"], files := ["/db/output/src_archive.zip"] } "/db").2.2.2.1
      (by decide) (by decide) (by decide) (by decide)
  · exact (c8_findSourceArchive_probe_order
      { dirs := ["/db"], files := [] } "/db").2.2.2.2
      (by decide) (by decide) (by decide) (by decide)

/-- C9: `refresh` on success replaces the cached contents and clears the
cached error; on failure it clears the cached contents, stores the error and
re-raises the same error; in both outcomes exactly one change notification,
carrying the already-updated item, is fired; two consecutive refreshes fire
exactly two notifications. -/
theorem c9_refresh_behaviour (fs : FileSystem) (item : DatabaseItemImpl) :
    ((DatabaseItemImpl.refresh fs item).notifications
        = [(DatabaseItemImpl.refresh fs item).updated]) ∧
    (∀ c w, resolveDatabaseContents fs item.databaseUri = .ok (c, w) →
      DatabaseItemImpl.refresh fs item
        = { updated := { item with contents := some c, error := none },
            notifications := [{ item with contents := some c, error := none }],
            result := .ok () }) ∧
    (∀ e, resolveDatabaseContents fs item.databaseUri = .error e →
      DatabaseItemImpl.refresh fs item
        = { updated := { item with contents := none, error := some e },
            notifications := [{ item with contents := none, error := some e }],
            result := .error e }) ∧
    ((DatabaseItemImpl.refresh fs item).notifications.length
      + (DatabaseItemImpl.refresh fs (DatabaseItemImpl.refresh fs item).updated).notifications.length
      = 2) := by
  refine ⟨?_, ?_, ?_, ?_⟩
  · unfold DatabaseItemImpl.refresh
    cases resolveDatabaseContents fs item.databaseUri <;> simp
  · intro c w h
    simp [DatabaseItemImpl.refresh, h]
  · intro e h
    simp [DatabaseItemImpl.refresh, h]
  · have hlen : ∀ (g : FileSystem) (it : DatabaseItemImpl),
        (DatabaseItemImpl.refresh g it).notifications.length = 1 := by
      intro g it
      unfold DatabaseItemImpl.refresh
      cases resolveDatabaseContents g it.databaseUri <;> simp
    rw [hlen, hlen]

/-- A root `/db` holding one dataset directory `db-a` with exactly one
`.dbscheme` file and no source archive. -/
def fsOneScheme : FileSystem :=
  { dirs := ["/db", "/db/db-a"], files := ["/db/db-a/a.dbscheme"] }

/-- The contents `fsOneScheme` resolves `/db` to. -/
def oneSchemeContents : DatabaseContents :=
  { kind := DatabaseKind.Database, name := "db",
    datasetUri := Uri.file "/db/db-a/", sourceArchiveUri := none,
    dbSchemeUri := some (Uri.file "/db/db-a/a.dbscheme") }

/-- An item for `/db` as reconstructed from persisted state: no contents yet. -/
def itemFresh : DatabaseItemImpl :=
  mkDatabaseItem (Uri.file "/db")
    none { displayName := none, ignoreSourceArchive := false }

/-- Witness for `c9_refresh_behaviour`: a refresh of `/db` that succeeds
against `fsOneScheme`, and one that fails because `/db` does not exist on an
empty filesystem. -/
theorem c9_refresh_behaviour_witness :
    DatabaseItemImpl.refresh fsOneScheme itemFresh
      = { updated := { itemFresh with contents := some oneSchemeContents, error := none },
          notifications := [{ itemFresh with contents := some oneSchemeContents, error := none }],
          result := .ok () } ∧
    DatabaseItemImpl.refresh ({ dirs := [], files := [] } : FileSystem) itemFresh
      = { updated :=
            { itemFresh with
              contents := none,
              error := some (.invalidDatabase (notExistMsg "/db")) },
          notifications :=
            [{ itemFresh with
               contents := none,
               error := some (.invalidDatabase (notExistMsg "/db")) }],
          result := .error (.invalidDatabase (notExistMsg "/db")) } := by
  constructor
  · exact (c9_refresh_behaviour fsOneScheme itemFresh).2.1 oneSchemeContents [] (by decide)
  · exact (c9_refresh_behaviour ({ dirs := [], files := [] } : FileSystem) itemFresh).2.2.1
      (.invalidDatabase (notExistMsg "/db")) (by decide)

/-- The C10 invariant: the cached contents and the cached error are never
both present. -/
def contentsErrorExclusive (item : DatabaseItemImpl) : Prop :=
  item.contents = none ∨ item.error = none

theorem refreshUpdatedExclusive (fs : FileSystem) (item : DatabaseItemImpl) :
    contentsErrorExclusive ((DatabaseItemImpl.refresh fs item).updated) := by
  unfold DatabaseItemImpl.refresh contentsErrorExclusive
  cases resolveDatabaseContents fs item.databaseUri <;> simp

theorem foldlRefreshExclusive :
    ∀ (fss : List FileSystem) (item : DatabaseItemImpl),
      contentsErrorExclusive item →
      contentsErrorExclusive
        (fss.foldl (fun it fs => (DatabaseItemImpl.refresh fs it).updated) item)
  | [], _, h => h
  | fs :: rest, item, _ =>
    foldlRefreshExclusive rest ((DatabaseItemImpl.refresh fs item).updated)
      (refreshUpdatedExclusive fs item)

/-- C10: from any construction — eagerly resolved contents via `openDatabase`
or contents left absent when reconstructed from persisted state, both going
through the constructor, which initializes `_error` to `undefined` — and any
sequence of `refresh()` calls against arbitrary filesystem snapshots, the
cached contents and the cached error are never both present. -/
theorem c10_contents_error_never_both (uri : Uri) (c0 : Option DatabaseContents)
    (opts : FullDatabaseOptions) (fss : List FileSystem) :
    contentsErrorExclusive
      (fss.foldl (fun it fs => (DatabaseItemImpl.refresh fs it).updated)
        (mkDatabaseItem uri c0 opts)) :=
  foldlRefreshExclusive fss (mkDatabaseItem uri c0 opts) (Or.inr rfl)

/-- A filesystem on which `/d` does not exist at all. -/
def fsMissing : FileSystem := { dirs := [], files := [] }

/-- A freshly constructed manager: no items, no current item, empty store. -/
def emptyManager : DatabaseManagerState :=
  { databaseItems := [], currentDatabaseItem := none,
    workspaceState := { currentDB := none, dbList := [] }, nextId := 0 }

/-- C2 counterexample: `openDatabase` on a location whose resolution fails.
The error propagates, but — against the claim — no item is added: the
registry is unchanged and a subsequent find by that location returns
nothing. -/
theorem c2_counterexample_item_not_added :
    (openDatabase fsMissing emptyManager (Uri.file "/d") none).2.2
      = .error (.invalidDatabase (notExistMsg "/d")) ∧
    (openDatabase fsMissing emptyManager (Uri.file "/d") none).1.databaseItems = [] ∧
    findDatabaseItem (openDatabase fsMissing emptyManager (Uri.file "/d") none).1
      (Uri.file "/d") = none := by
  refine ⟨by decide, by decide, by decide⟩

/-- C2 (amended): when resolution of the location fails, `openDatabase`
propagates that very error and adds nothing — the construction of the item
sits after the `await resolveDatabaseContents(uri)` that throws — so the
whole manager state, and with it any later find, is exactly as before. -/
theorem c2_open_error_propagates_nothing_added (fs : FileSystem)
    (s : DatabaseManagerState) (uri : Uri) (options : Option DatabaseOptions)
    (e : DbError) (h : resolveDatabaseContents fs uri = .error e) :
    openDatabase fs s uri options = (s, [], .error e) ∧
    findDatabaseItem (openDatabase fs s uri options).1 uri
      = findDatabaseItem s uri := by
  have h1 : openDatabase fs s uri options = (s, [], .error e) := by
    simp [openDatabase, h]
  exact ⟨h1, by rw [h1]⟩

/-- Witness for `c2_open_error_propagates_nothing_added` at the missing
location `/d` over the empty registry. -/
theorem c2_open_error_propagates_nothing_added_witness :
    openDatabase fsMissing emptyManager (Uri.file "/d") none
      = (emptyManager, [], .error (.invalidDatabase (notExistMsg "/d"))) ∧
    findDatabaseItem (openDatabase fsMissing emptyManager (Uri.file "/d") none).1
      (Uri.file "/d") = findDatabaseItem emptyManager (Uri.file "/d") :=
  c2_open_error_propagates_nothing_added fsMissing emptyManager (Uri.file "/d")
    none (.invalidDatabase (notExistMsg "/d")) (by decide)

theorem eraseFirstById_mem (i : Nat) :
    ∀ (l : List RegisteredItem), l.Pairwise (fun a b => a.id ≠ b.id) →
      ∀ x ∈ eraseFirstById l i, x ∈ l ∧ x.id ≠ i := by
  intro l
  induction l with
  | nil =>
    intro _ x hx
    simp [eraseFirstById] at hx
  | cons a rest ih =>
    intro hpw x hx
    rw [List.pairwise_cons] at hpw
    obtain ⟨ha, hrest⟩ := hpw
    simp only [eraseFirstById] at hx
    split at hx
    · rename_i hcond
      have hai : a.id = i := by simpa using hcond
      refine ⟨List.mem_cons_of_mem a hx, fun hxi => ?_⟩
      exact ha x hx (by rw [hai, hxi])
    · rename_i hcond
      rcases List.mem_cons.mp hx with rfl | hx2
      · exact ⟨List.mem_cons_self _ _, by simpa using hcond⟩
      · obtain ⟨hm, hne⟩ := ih hrest x hx2
        exact ⟨List.mem_cons_of_mem a hm, hne⟩

/-- C3 counterexample: one item, set current, with the persisted store
exactly as `openDatabase` + `setCurrentDatabaseItem` leave it. -/
def itemDbOpen : DatabaseItemImpl :=
  mkDatabaseItem (Uri.file "/db") (some oneSchemeContents)
    { displayName := none, ignoreSourceArchive := false }

def managerWithCurrent : DatabaseManagerState :=
  { databaseItems := [{ id := 0, item := itemDbOpen }],
    currentDatabaseItem := some 0,
    workspaceState :=
      { currentDB := some (Uri.toStr (Uri.file "/db")),
        dbList := [DatabaseItemImpl.getPersistedState itemDbOpen] },
    nextId := 1 }

/-- C3 counterexample: removing the current item clears the in-memory pointer
and the persisted list, but — against the claim — the persisted
current-location key still holds the removed item's location string
(`removeDatabaseItem` never calls `updatePersistedCurrentDatabaseItem`). -/
theorem c3_counterexample_stale_persisted_current :
    (removeDatabaseItem managerWithCurrent 0).1.currentDatabaseItem = none ∧
    (removeDatabaseItem managerWithCurrent 0).1.workspaceState.dbList = [] ∧
    (removeDatabaseItem managerWithCurrent 0).1.workspaceState.currentDB
      = some "file:/db" := by
  refine ⟨by decide, by decide, by decide⟩

/-- C3 (amended): removing the current item makes the in-memory current
pointer absent and the persisted database list no longer contains the removed
location, but the persisted current-location key is left exactly as it was —
still holding the removed item's location string when it held it before. -/
theorem c3_remove_current_item (s : DatabaseManagerState) (r : RegisteredItem)
    (hpw : s.databaseItems.Pairwise (fun a b => a.id ≠ b.id))
    (hcur : s.currentDatabaseItem = some r.id)
    (huniq : ∀ x ∈ s.databaseItems, x.id ≠ r.id →
      Uri.toStr x.item.databaseUri ≠ Uri.toStr r.item.databaseUri) :
    (removeDatabaseItem s r.id).1.currentDatabaseItem = none ∧
    (removeDatabaseItem s r.id).1.workspaceState.currentDB
      = s.workspaceState.currentDB ∧
    (∀ p ∈ (removeDatabaseItem s r.id).1.workspaceState.dbList,
      p.uri ≠ Uri.toStr r.item.databaseUri) ∧
    (removeDatabaseItem s r.id).2 = [DbEvent.didChangeDatabaseItem none] := by
  refine ⟨?_, ?_, ?_, ?_⟩
  · simp [removeDatabaseItem, updatePersistedDatabaseList, hcur]
  · simp [removeDatabaseItem, updatePersistedDatabaseList]
  · intro p hp
    simp only [removeDatabaseItem, updatePersistedDatabaseList, List.mem_map] at hp
    obtain ⟨x, hx, rfl⟩ := hp
    obtain ⟨hmem, hne⟩ := eraseFirstById_mem r.id s.databaseItems hpw x hx
    exact huniq x hmem hne
  · simp [removeDatabaseItem]

/-- Witness for `c3_remove_current_item` on the one-item registry whose item
is current. -/
theorem c3_remove_current_item_witness :
    (removeDatabaseItem managerWithCurrent 0).1.currentDatabaseItem = none ∧
    (removeDatabaseItem managerWithCurrent 0).1.workspaceState.currentDB
      = managerWithCurrent.workspaceState.currentDB ∧
    (∀ p ∈ (removeDatabaseItem managerWithCurrent 0).1.workspaceState.dbList,
      p.uri ≠ Uri.toStr itemDbOpen.databaseUri) ∧
    (removeDatabaseItem managerWithCurrent 0).2
      = [DbEvent.didChangeDatabaseItem none] :=
  c3_remove_current_item managerWithCurrent { id := 0, item := itemDbOpen }
    (by simp [managerWithCurrent, List.pairwise_cons]) rfl
    (by simp [managerWithCurrent])

theorem strApDat (a b : String) : (a ++ b).data = a.data ++ b.data := by
  cases a
  cases b
  rfl

theorem isPrefixList_append (p r : List Char) : isPrefixList p (p ++ r) = true := by
  induction p with
  | nil => rfl
  | cons c cs ih => simp [isPrefixList, ih]

theorem listIsSub_self (p r : List Char) : listIsSub p (p ++ r) = true := by
  cases hpr : p ++ r with
  | nil =>
    have hp : p = [] := (List.append_eq_nil.mp hpr).1
    simp [listIsSub, hp]
  | cons c cs =>
    have h1 : isPrefixList p (p ++ r) = true := isPrefixList_append p r
    rw [hpr] at h1
    simp [listIsSub, h1]

theorem listIsSub_append_left (l p t : List Char) (h : listIsSub p t = true) :
    listIsSub p (l ++ t) = true := by
  induction l with
  | nil => simpa using h
  | cons c cs ih => simp [listIsSub, ih]

/-- A string occurring literally in the middle of a concatenation is always a
substring of it. -/
theorem strContains_middle (a b c : String) : strContains (a ++ b ++ c) b = true := by
  unfold strContains
  have hd : (a ++ b ++ c).data = a.data ++ (b.data ++ c.data) := by
    rw [strApDat, strApDat, List.append_assoc]
  rw [hd]
  exact listIsSub_append_left a.data b.data (b.data ++ c.data) (listIsSub_self b.data c.data)

theorem noSchemeMsg_mentions (p d : String) :
    strContains (noSchemeMsg p d) d = true := by
  unfold noSchemeMsg
  exact strContains_middle _ d _

theorem multiSchemeMsg_mentions (p d : String) :
    strContains (multiSchemeMsg p d) d = true := by
  unfold multiSchemeMsg
  exact strContains_middle _ d _

/-- A dataset directory `/db/db-a` holding two `.dbscheme` files. -/
def fsTwoSchemes : FileSystem :=
  { dirs := ["/db", "/db/db-a"],
    files := ["/db/db-a/a.dbscheme", "/db/db-a/b.dbscheme"] }

/-- A dataset directory `/db/db-a` holding no `.dbscheme` file. -/
def fsNoSchemeDB : FileSystem := { dirs := ["/db", "/db/db-a"], files := [] }

/-- C4 counterexample: with exactly two schema files the resolution fails and
the message does name the dataset path, but — against the claim — it does not
contain the count of schema files found: no `2` occurs anywhere in it. -/
theorem c4_counterexample_count_absent :
    resolveDatabaseContents fsTwoSchemes (Uri.file "/db")
      = .error (.invalidDatabase (multiSchemeMsg "/db" "/db/db-a/")) ∧
    (getDbSchemeFiles fsTwoSchemes "/db/db-a/").length = 2 ∧
    strContains (multiSchemeMsg "/db" "/db/db-a/") "2" = false := by
  refine ⟨by decide, by decide, by decide⟩

/-- C4 (amended): once resolution reaches the schema-location step (a `file`
URI, an existing path, a structured resolution in hand), zero schema files or
more than one both fail with an `InvalidDatabase` error whose message names
the dataset path and says whether none or multiple were found — without the
numeric count — and exactly one succeeds with the schema location set to that
file, resolved against the dataset path. -/
theorem c4_dbscheme_count (fs : FileSystem) (uri : Uri) (c : DatabaseContents)
    (w : List String)
    (hscheme : uri.scheme = "file")
    (hex : fs.pathExists (Uri.fsPath uri) = true)
    (hres : resolveDatabase fs (Uri.fsPath uri) = .ok (some c, w)) :
    (getDbSchemeFiles fs (Uri.fsPath c.datasetUri) = [] →
      resolveDatabaseContents fs uri
        = .error (.invalidDatabase (noSchemeMsg (Uri.fsPath uri) (Uri.fsPath c.datasetUri))) ∧
      strContains (noSchemeMsg (Uri.fsPath uri) (Uri.fsPath c.datasetUri))
        (Uri.fsPath c.datasetUri) = true) ∧
    (∀ f1 f2 rest, getDbSchemeFiles fs (Uri.fsPath c.datasetUri) = f1 :: f2 :: rest →
      resolveDatabaseContents fs uri
        = .error (.invalidDatabase (multiSchemeMsg (Uri.fsPath uri) (Uri.fsPath c.datasetUri))) ∧
      strContains (multiSchemeMsg (Uri.fsPath uri) (Uri.fsPath c.datasetUri))
        (Uri.fsPath c.datasetUri) = true) ∧
    (∀ f, getDbSchemeFiles fs (Uri.fsPath c.datasetUri) = [f] →
      resolveDatabaseContents fs uri
        = .ok ({ c with dbSchemeUri := some (Uri.file (pathResolve (Uri.fsPath c.datasetUri) f)) }, w)) := by
  refine ⟨?_, ?_, ?_⟩
  · intro h
    exact ⟨by simp [resolveDatabaseContents, hscheme, hex, hres, h],
      noSchemeMsg_mentions _ _⟩
  · intro f1 f2 rest h
    exact ⟨by simp [resolveDatabaseContents, hscheme, hex, hres, h],
      multiSchemeMsg_mentions _ _⟩
  · intro f h
    simp [resolveDatabaseContents, hscheme, hex, hres, h]

/-- The structured contents `resolveDatabase` produces for `/db` with dataset
directory `db-a` and no source archive, before the schema step fills
`dbSchemeUri`. -/
def dbaContents : DatabaseContents :=
  { kind := DatabaseKind.Database, name := "db",
    datasetUri := Uri.file "/db/db-a/", sourceArchiveUri := none,
    dbSchemeUri := none }

/-- Witness for `c4_dbscheme_count`: the zero-, two- and one-schema-file
variants of the same database shape. -/
theorem c4_dbscheme_count_witness :
    (resolveDatabaseContents fsNoSchemeDB (Uri.file "/db")
        = .error (.invalidDatabase (noSchemeMsg (Uri.fsPath (Uri.file "/db"))
            (Uri.fsPath dbaContents.datasetUri))) ∧
      strContains (noSchemeMsg (Uri.fsPath (Uri.file "/db"))
        (Uri.fsPath dbaContents.datasetUri)) (Uri.fsPath dbaContents.datasetUri) = true) ∧
    (resolveDatabaseContents fsTwoSchemes (Uri.file "/db")
        = .error (.invalidDatabase (multiSchemeMsg (Uri.fsPath (Uri.file "/db"))
            (Uri.fsPath dbaContents.datasetUri))) ∧
      strContains (multiSchemeMsg (Uri.fsPath (Uri.file "/db"))
        (Uri.fsPath dbaContents.datasetUri)) (Uri.fsPath dbaContents.datasetUri) = true) ∧
    resolveDatabaseContents fsOneScheme (Uri.file "/db")
      = .ok ({ dbaContents with dbSchemeUri := some (Uri.file (pathResolve (Uri.fsPath dbaContents.datasetUri) "a.dbscheme")) }, []) := by
  refine ⟨?_, ?_, ?_⟩
  · exact (c4_dbscheme_count fsNoSchemeDB (Uri.file "/db") dbaContents []
      rfl (by decide) (by decide)).1 (by decide)
  · exact (c4_dbscheme_count fsTwoSchemes (Uri.file "/db") dbaContents []
      rfl (by decide) (by decide)).2.1 "a.dbscheme" "b.dbscheme" [] (by decide)
  · exact (c4_dbscheme_count fsOneScheme (Uri.file "/db") dbaContents []
      rfl (by decide) (by decide)).2.2 "a.dbscheme" (by decide)

/-- The sanitized relative path never starts with a separator: the leading
slashes are all stripped, and the colon replacement cannot introduce one. -/
theorem sanitizeNoLeadingSlash (f : String) :
    strStartsWith (replaceFirstColon (dropLeadingSlashes f)) "/" = false := by
  unfold strStartsWith replaceFirstColon dropLeadingSlashes
  show isPrefixList ['/'] (replaceFirstColonList (f.data.dropWhile (· == '/'))) = false
  induction f.data with
  | nil => rfl
  | cons c cs ih =>
    by_cases hc : c = '/'
    · simpa [List.dropWhile, hc] using ih
    · have hcf : (c == '/') = false := by simp [hc]
      simp only [List.dropWhile, hcf]
      by_cases hcol : c = ':'
      · simp [replaceFirstColonList, hcol, isPrefixList]
      · simp [replaceFirstColonList, hcol, isPrefixList]
        exact fun h => hc h.symm

/-- A zip-backed source archive URI for `/db/src.zip`, as `findSourceArchive`
produces it. -/
def zipArchiveUri : Uri := { scheme := zipArchiveScheme, path := "/db/src.zip" }

def zipContents : DatabaseContents :=
  { kind := DatabaseKind.Database, name := "db",
    datasetUri := Uri.file "/db/db-a/", sourceArchiveUri := some zipArchiveUri,
    dbSchemeUri := none }

/-- An item for `/db` whose source archive is the zip archive. -/
def sampleZipItem : DatabaseItemImpl :=
  mkDatabaseItem (Uri.file "/db") (some zipContents)
    { displayName := none, ignoreSourceArchive := false }

/-- A directory-backed source archive URI for `/db/src`. -/
def dirArchiveUri : Uri := Uri.file "/db/src"

def dirContents : DatabaseContents :=
  { kind := DatabaseKind.Database, name := "db",
    datasetUri := Uri.file "/db/db-a/", sourceArchiveUri := some dirArchiveUri,
    dbSchemeUri := none }

/-- An item for `/db` whose source archive is the plain directory. -/
def sampleDirItem : DatabaseItemImpl :=
  mkDatabaseItem (Uri.file "/db") (some dirContents)
    { displayName := none, ignoreSourceArchive := false }

/-- C5 counterexample: `file.replace(':', '_')` with a string pattern
replaces only the FIRST colon, so an input with two colons keeps the second
one — against the claim that every colon is replaced. -/
theorem c5_counterexample_second_colon_kept :
    DatabaseItemImpl.resolveSourceFile sampleZipItem (some "a:b:c.py")
      = { zipArchiveUri with fragment := "a_b:c.py" } ∧
    strContainsChar "a_b:c.py" ':' = true ∧
    "a_b:c.py" ≠ "a_b_c.py" := by
  refine ⟨by decide, by decide, by decide⟩

/-- C5 (amended): with a source archive configured, `resolveSourceFile`
strips all leading path separators and replaces the FIRST colon (not every
colon) with an underscore; for an archive-backed source the sanitized string
becomes the fragment of the archive URI, and for a directory-backed source it
is joined onto the archive path with exactly one separator at the boundary;
the sanitized string never starts with a separator. -/
theorem c5_resolveSourceFile_sanitize (item : DatabaseItemImpl) (sa : Uri)
    (f : String) (hsa : DatabaseItemImpl.sourceArchive item = some sa) :
    (sa.scheme = zipArchiveScheme →
      DatabaseItemImpl.resolveSourceFile item (some f)
        = { sa with fragment := replaceFirstColon (dropLeadingSlashes f) }) ∧
    (sa.scheme ≠ zipArchiveScheme →
      DatabaseItemImpl.resolveSourceFile item (some f)
        = { sa with path := (if strEndsWith sa.path "/" then sa.path else sa.path ++ "/") ++ replaceFirstColon (dropLeadingSlashes f) }) ∧
    strStartsWith (replaceFirstColon (dropLeadingSlashes f)) "/" = false := by
  refine ⟨?_, ?_, sanitizeNoLeadingSlash f⟩
  · intro hz
    simp [DatabaseItemImpl.resolveSourceFile, hsa, hz]
  · intro hz
    simp [DatabaseItemImpl.resolveSourceFile, hsa, hz]

/-- Witness for `c5_resolveSourceFile_sanitize`: the archive-backed item maps
`a:b.py` to the fragment `a_b.py`; the directory-backed item maps `/a/b.py`
to the path `/db/src/a/b.py` with no doubled separator. -/
theorem c5_resolveSourceFile_sanitize_witness :
    DatabaseItemImpl.resolveSourceFile sampleZipItem (some "a:b.py")
      = { zipArchiveUri with fragment := "a_b.py" } ∧
    DatabaseItemImpl.resolveSourceFile sampleDirItem (some "/a/b.py")
      = { dirArchiveUri with path := "/db/src/a/b.py" } ∧
    strStartsWith (replaceFirstColon (dropLeadingSlashes "a:b.py")) "/" = false := by
  refine ⟨?_, ?_, ?_⟩
  · exact ((c5_resolveSourceFile_sanitize sampleZipItem zipArchiveUri "a:b.py"
      rfl).1 rfl).trans (by decide)
  · exact ((c5_resolveSourceFile_sanitize sampleDirItem dirArchiveUri "/a/b.py"
      rfl).2.1 (by decide)).trans (by decide)
  · exact (c5_resolveSourceFile_sanitize sampleZipItem zipArchiveUri "a:b.py"
      rfl).2.2

/-- C6: the membership test against the code's own explorer root.  The
explorer URI for the zip archive `/db/src.zip` carries the archive path in
its FRAGMENT while its path component is `/`; `belongsToExplorerUri` compares
the candidate's fragment against that URI's `fsPath` — which is `/` — so the
candidate whose fragment IS the archive's filesystem path (the explorer root
itself) is rejected, while a candidate with the meaningless fragment `/` is
accepted. -/
theorem c6_belongs_explorer_wrong_comparison :
    DatabaseItemImpl.getExplorerUri sampleZipItem
      = some { scheme := zipArchiveScheme, path := "/", fragment := "/db/src.zip" } ∧
    DatabaseItemImpl.belongsToExplorerUri sampleZipItem
      { scheme := zipArchiveScheme, path := "/", fragment := "/db/src.zip" } = false ∧
    DatabaseItemImpl.belongsToExplorerUri sampleZipItem
      { scheme := zipArchiveScheme, path := "/", fragment := "/" } = true := by
  refine ⟨by decide, by decide, by decide⟩
